import Mathlib

/-!
NexusChatbotUI (static/chatbot.js)

A shallow embedding of the browser chat client of `static/chatbot.js` and the
properties its specification states about it.

Conventions of the embedding.

* A JavaScript string is a list of characters (`JSString`).
* A JavaScript value reaching the client (the parsed inbound frame, the values
  of the context accessors) is plain data: `JSValue`.  A Number is carried as
  the text `Number::toString` gives it; the client never does arithmetic.
* The page (`Dom`) holds the five elements the client looks up by id.
* A method that can throw returns an `Outcome`: the state reached, and the
  fault if one was raised.  JavaScript has no rollback, so the state of a
  faulted call is the state at the point of the throw.
-/

namespace NexusChatbot

/-- A JavaScript string, as its sequence of characters. -/
abbrev JSString := List Char

/-! ## Strings: `trim`, `substr` -/

/-- ECMAScript `WhiteSpace` and `LineTerminator` code points, the characters
`String.prototype.trim` strips: TAB, LF, VT, FF, CR, SP, NBSP, U+1680,
U+2000..U+200A, U+2028, U+2029, U+202F, U+205F, U+3000, U+FEFF. -/
def isWhiteSpace (c : Char) : Bool :=
  let n := c.toNat
  n == 0x09 || n == 0x0A || n == 0x0B || n == 0x0C || n == 0x0D || n == 0x20 ||
  n == 0xA0 || n == 0x1680 || (0x2000 ≤ n && n ≤ 0x200A) || n == 0x2028 ||
  n == 0x2029 || n == 0x202F || n == 0x205F || n == 0x3000 || n == 0xFEFF

/-- Strip leading white space (`String.prototype.trimStart`). -/
def trimStart (s : JSString) : JSString := s.dropWhile isWhiteSpace

/-- Strip trailing white space (`String.prototype.trimEnd`). -/
def trimEnd (s : JSString) : JSString := (s.reverse.dropWhile isWhiteSpace).reverse

/-- The method `String.prototype.trim`: white space removed from both ends. -/
def trim (s : JSString) : JSString := trimEnd (trimStart s)

/-- The call `s.substr(start, length)` for non-negative integer arguments: the
at most `length` characters of `s` from index `start` on. -/
def substr (s : JSString) (start length : Nat) : JSString := (s.drop start).take length

/-! ## Values -/

mutual
/-- Plain JavaScript data. -/
inductive JSValue where
  | undefined : JSValue
  | null : JSValue
  | bool (b : Bool) : JSValue
  /-- A Number, carried as its `Number::toString` text (`1.5`, `0`, `NaN`). -/
  | num (text : JSString) : JSValue
  | str (s : JSString) : JSValue
  | arr (items : JSValues) : JSValue
  | obj (members : JSMembers) : JSValue
/-- The elements of an array. -/
inductive JSValues where
  | nil : JSValues
  | cons (head : JSValue) (tail : JSValues) : JSValues
/-- The own properties of an object, in insertion order. -/
inductive JSMembers where
  | nil : JSMembers
  | cons (key : JSString) (value : JSValue) (tail : JSMembers) : JSMembers
end

/-- The abstract operation `ToBoolean`: `undefined`, `null`, `false`, `0`,
`NaN` and the empty string are falsy, everything else is truthy. -/
def toBoolean : JSValue → Bool
  | .undefined => false
  | .null => false
  | .bool b => b
  | .num t => !(t == "0".toList || t == "NaN".toList)
  | .str s => !s.isEmpty
  | .arr _ => true
  | .obj _ => true

/-- The exceptions the client can raise; none of them is caught. -/
inductive Fault where
  /-- A property read on `undefined` or `null`, or a `ToString` of an object
  that has no callable `toString` and no primitive `valueOf`. -/
  | typeError
  /-- Raised by `JSON.parse` on a text that is not JSON. -/
  | syntaxError
  /-- Raised by `WebSocket.send` while the socket is connecting. -/
  | invalidStateError
  deriving DecidableEq, Repr

/-- Whether an object has an own property of the given name. -/
def JSMembers.hasKey : JSMembers → JSString → Bool
  | .nil, _ => false
  | .cons k _ rest, key => k == key || rest.hasKey key

mutual
/-- The abstract operation `ToString`, as a template literal applies it to a
substitution.  On an object it runs `OrdinaryToPrimitive` with hint string:
plain data holds no function, so an own property `toString` shadows
`Object.prototype.toString` with a value that cannot be called, `valueOf`
gives the object back, and the conversion throws `TypeError`; without such a
property the text is `[object Object]`.  An array is joined. -/
def toStr : JSValue → Except Fault JSString
  | .undefined => .ok "undefined".toList
  | .null => .ok "null".toList
  | .bool true => .ok "true".toList
  | .bool false => .ok "false".toList
  | .num t => .ok t
  | .str s => .ok s
  | .arr items => joinItems items
  | .obj members =>
    if members.hasKey "toString".toList then .error .typeError
    else .ok "[object Object]".toList
/-- The method `Array.prototype.join` with the separator `,`: `undefined` and
`null` elements give the empty string, the other elements their `ToString`,
converted first to last. -/
def joinItems : JSValues → Except Fault JSString
  | .nil => .ok []
  | .cons v .nil => itemStr v
  | .cons v rest =>
    match itemStr v with
    | .error f => .error f
    | .ok first =>
      match joinItems rest with
      | .error f => .error f
      | .ok others => .ok (first ++ Char.ofNat 44 :: others)
/-- One element of a joined array. -/
def itemStr : JSValue → Except Fault JSString
  | .undefined => .ok []
  | .null => .ok []
  | v => toStr v
end

/-! ## `JSON.stringify` -/

/-- A hexadecimal digit, lower case. -/
def hexDigit (n : Nat) : Char :=
  if n < 10 then Char.ofNat (48 + n) else Char.ofNat (87 + n)

/-- The escape `\uXXXX` of a code unit. -/
def unicodeEscape (n : Nat) : JSString :=
  [Char.ofNat 92, Char.ofNat 117, hexDigit (n / 4096 % 16), hexDigit (n / 256 % 16),
    hexDigit (n / 16 % 16), hexDigit (n % 16)]

/-- One character inside `QuoteJSONString`: the two-character escapes for
backspace, tab, line feed, form feed, carriage return, the double quote and
the backslash; `\uXXXX` for the other control characters; the character
itself otherwise. -/
def quoteChar (c : Char) : JSString :=
  let n := c.toNat
  if n = 8 then [Char.ofNat 92, Char.ofNat 98]
  else if n = 9 then [Char.ofNat 92, Char.ofNat 116]
  else if n = 10 then [Char.ofNat 92, Char.ofNat 110]
  else if n = 12 then [Char.ofNat 92, Char.ofNat 102]
  else if n = 13 then [Char.ofNat 92, Char.ofNat 114]
  else if n = 34 then [Char.ofNat 92, Char.ofNat 34]
  else if n = 92 then [Char.ofNat 92, Char.ofNat 92]
  else if n < 32 then unicodeEscape n
  else [c]

/-- The abstract operation `QuoteJSONString`. -/
def quoteJSONString (s : JSString) : JSString :=
  Char.ofNat 34 :: (s.flatMap quoteChar ++ [Char.ofNat 34])

/-- Whether a Number is finite, read off its text. -/
def isFiniteText (t : JSString) : Bool :=
  !(t == "NaN".toList || t == "Infinity".toList || t == "-Infinity".toList)

mutual
/-- The abstract operation `SerializeJSONProperty` without replacer or
indentation; `none` is the result `undefined`. -/
def serializeJSONProperty : JSValue → Option JSString
  | .undefined => none
  | .null => some "null".toList
  | .bool true => some "true".toList
  | .bool false => some "false".toList
  | .num t => some (if isFiniteText t then t else "null".toList)
  | .str s => some (quoteJSONString s)
  | .arr items => some (Char.ofNat 91 :: (serializeJSONArray items ++ [Char.ofNat 93]))
  | .obj members => some (Char.ofNat 123 :: (serializeJSONObject members false ++ [Char.ofNat 125]))
/-- The elements of `SerializeJSONArray`, comma separated; an element that
serializes to `undefined` is written `null`. -/
def serializeJSONArray : JSValues → JSString
  | .nil => []
  | .cons v .nil => (serializeJSONProperty v).getD "null".toList
  | .cons v rest => (serializeJSONProperty v).getD "null".toList ++ Char.ofNat 44 :: serializeJSONArray rest
/-- The members of `SerializeJSONObject`, comma separated; a property whose
value serializes to `undefined` is left out.  The flag tells whether a member
has been written already. -/
def serializeJSONObject : JSMembers → Bool → JSString
  | .nil, _ => []
  | .cons k v rest, written =>
    match serializeJSONProperty v with
    | none => serializeJSONObject rest written
    | some text =>
      (if written then [Char.ofNat 44] else []) ++ quoteJSONString k ++ Char.ofNat 58 :: text
        ++ serializeJSONObject rest true
end

/-- The call `JSON.stringify(value)`; `none` is the result `undefined`. -/
def JSONstringify (v : JSValue) : Option JSString := serializeJSONProperty v

/-! ## Faults and property access -/

/-- Look a key up among the own properties of an object. -/
def JSMembers.find : JSMembers → JSString → JSValue
  | .nil, _ => .undefined
  | .cons k v rest, key => if k = key then v else rest.find key

/-- The property read `value.key` for the keys the client reads, none of which
is a built-in property: a `TypeError` on `undefined` and `null`, the own
property of an object, `undefined` on every other value. -/
def getProp (v : JSValue) (key : JSString) : Except Fault JSValue :=
  match v with
  | .undefined => .error .typeError
  | .null => .error .typeError
  | .obj members => .ok (members.find key)
  | _ => .ok .undefined

/-! ## The page -/

/-- A transcript entry: the `div` that `addMessage` appends. -/
structure MessageDiv where
  className : JSString
  textContent : JSString
  deriving DecidableEq

/-- The elements of the page the client reaches through `getElementById`.  The
client takes all of them to exist. -/
structure Dom where
  /-- The `value` of `#message-input`. -/
  messageInput : JSString
  /-- The children of `#chat-history`, first appended first. -/
  chatHistory : List MessageDiv
  /-- Whether `#chat-history` is scrolled to its end. -/
  chatScrolledToEnd : Bool
  /-- The `style.display` of `#execution-details`. -/
  executionDetailsDisplay : JSString
  /-- The markup assigned to `innerHTML` of `#ueir-graph-viewer`. -/
  graphViewerHTML : JSString
  /-- The markup assigned to `innerHTML` of `#metrics-display`. -/
  metricsHTML : JSString
  /-- The values handed to `showLearningFeedback`, first call first. -/
  learningFeedback : List JSValue

/-! ## The connection -/

/-- The `readyState` of a `WebSocket`. -/
inductive ReadyState where
  | CONNECTING
  | OPEN
  | CLOSING
  | CLOSED
  deriving DecidableEq, Repr

/-- A `WebSocket`: the URL it was opened on, its state, and the text frames it
has transmitted. -/
structure WebSocket where
  url : JSString
  readyState : ReadyState
  sent : List JSString

/-- The method `WebSocket.send(data)` of the platform: it throws
`InvalidStateError` while the socket is connecting, transmits the frame while
the socket is open, and otherwise (closing or closed) returns without
transmitting anything. -/
def WebSocket.send (ws : WebSocket) (data : JSString) : Except Fault WebSocket :=
  match ws.readyState with
  | .CONNECTING => .error .invalidStateError
  | .OPEN => .ok { ws with sent := ws.sent ++ [data] }
  | .CLOSING => .ok ws
  | .CLOSED => .ok ws

/-! ## What the file leaves to its surroundings -/

/-- The methods `static/chatbot.js` calls but does not define, and the
platform's JSON parser. -/
structure Env where
  /-- The value `this.getHardwarePreferences()` returns. -/
  getHardwarePreferences : JSValue
  /-- The value `this.getEnergyConstraints()` returns. -/
  getEnergyConstraints : JSValue
  /-- The value `this.getCostLimits()` returns. -/
  getCostLimits : JSValue
  /-- The markup `this.renderGraphVisualization(id)` returns. -/
  renderGraphVisualization : JSValue → JSString
  /-- The call `JSON.parse(text)`; `none` when it throws `SyntaxError`. -/
  JSONparse : JSString → Option JSValue

/-- The part of `window.location` the client reads, with the scheme of the
page. -/
structure Location where
  /-- The scheme of the page with its colon: `http:` or `https:`. -/
  protocol : JSString
  host : JSString

/-! ## The client -/

/-- The instance state of `NexusChatbotUI`, together with the page it is
bound to. -/
structure NexusChatbotUI where
  ws : Option WebSocket
  sessionId : JSString
  document : Dom

/-- The result of running a method: the state it reached and the fault it
raised, if any. -/
structure Outcome where
  state : NexusChatbotUI
  fault : Option Fault

/-- Sequencing of statements: a fault ends the method, otherwise the next
statement runs on the state reached. -/
def Outcome.andThen (o : Outcome) (next : NexusChatbotUI → Outcome) : Outcome :=
  match o.fault with
  | some _ => o
  | none => next o.state

/-- The method `addMessage(sender, text)`: build a `div` with class
`message <sender>` and text `<sender>: <text>`, append it to the transcript
and scroll to its end.  The template literal converts `text` with `ToString`
before the `div` is appended; when that throws, nothing is appended. -/
def addMessage (ui : NexusChatbotUI) (sender : JSString) (text : JSValue) : Outcome :=
  match toStr text with
  | .error f => ⟨ui, some f⟩
  | .ok shown =>
    let messageDiv : MessageDiv :=
      { className := "message ".toList ++ sender
        textContent := sender ++ ": ".toList ++ shown }
    ⟨{ ui with document :=
        { ui.document with
          chatHistory := ui.document.chatHistory ++ [messageDiv]
          chatScrolledToEnd := true } }, none⟩

/-- The object `{ message: message, context: context }` that `sendMessage`
serializes, with the context built from the three accessors. -/
def requestEnvelope (env : Env) (message : JSString) : JSValue :=
  .obj (.cons "message".toList (.str message)
    (.cons "context".toList
      (.obj (.cons "hardware_preferences".toList env.getHardwarePreferences
        (.cons "energy_constraints".toList env.getEnergyConstraints
          (.cons "cost_limits".toList env.getCostLimits .nil))))
      .nil))

/-- The method `sendMessage()`. -/
def sendMessage (env : Env) (ui : NexusChatbotUI) : Outcome :=
  let message := trim ui.document.messageInput
  if message.isEmpty then ⟨ui, none⟩
  else
    (addMessage ui "user".toList (.str message)).andThen fun ui1 =>
      let ui2 := { ui1 with document := { ui1.document with messageInput := [] } }
      match ui2.ws with
      | none => ⟨ui2, some .typeError⟩
      | some ws =>
        match ws.send ((JSONstringify (requestEnvelope env message)).getD "undefined".toList) with
        | .error f => ⟨ui2, some f⟩
        | .ok ws1 => ⟨{ ui2 with ws := some ws1 }, none⟩

/-- The four substitutions of the metrics template, read in source order. -/
structure MetricsView where
  energyJoules : JSValue
  costDollars : JSValue
  performanceScore : JSValue
  constraintsSatisfied : JSValue

/-- The reads `summary.metrics.energy_joules`, `summary.metrics.cost_dollars`,
`summary.metrics.performance_score` and `summary.constraints_satisfied`. -/
def readMetrics (summary : JSValue) : Except Fault MetricsView := do
  let m1 ← getProp summary "metrics".toList
  let e ← getProp m1 "energy_joules".toList
  let m2 ← getProp summary "metrics".toList
  let c ← getProp m2 "cost_dollars".toList
  let m3 ← getProp summary "metrics".toList
  let p ← getProp m3 "performance_score".toList
  let b ← getProp summary "constraints_satisfied".toList
  pure ⟨e, c, p, b⟩

/-- The text of the template literal assigned to `metricsDiv.innerHTML`, on
the texts of its first three substitutions and the truth value tested by the
fourth. -/
def metricsMarkup (energy cost score : JSString) (satisfied : Bool) : JSString :=
  "\n            <h4>Execution Metrics</h4>\n            <ul>\n                <li>Energy Used: ".toList
    ++ energy
    ++ " J</li>\n                <li>Cost: $".toList
    ++ cost
    ++ "</li>\n                <li>Performance Score: ".toList
    ++ score
    ++ "</li>\n                <li>Constraints Satisfied: ".toList
    ++ (if satisfied then "Yes".toList else "No".toList)
    ++ "</li>\n            </ul>\n        ".toList

/-- The template literal assigned to `metricsDiv.innerHTML`: each of the first
three substitutions is converted with `ToString`, which can throw.  Every
fault of the reads and of the conversions is a `TypeError` raised before the
assignment, so reading first and converting afterwards gives the outcome of
the interleaved evaluation. -/
def metricsTemplate (v : MetricsView) : Except Fault JSString :=
  match toStr v.energyJoules with
  | .error f => .error f
  | .ok energy =>
    match toStr v.costDollars with
    | .error f => .error f
    | .ok cost =>
      match toStr v.performanceScore with
      | .error f => .error f
      | .ok score => .ok (metricsMarkup energy cost score (toBoolean v.constraintsSatisfied))

/-- The method `showExecutionDetails(summary)`. -/
def showExecutionDetails (env : Env) (ui : NexusChatbotUI) (summary : JSValue) : Outcome :=
  let ui1 := { ui with document := { ui.document with executionDetailsDisplay := "block".toList } }
  match getProp summary "ueir_graph_id".toList with
  | .error f => ⟨ui1, some f⟩
  | .ok graphId =>
    let ui2 := { ui1 with document :=
      { ui1.document with graphViewerHTML := env.renderGraphVisualization graphId } }
    match readMetrics summary with
    | .error f => ⟨ui2, some f⟩
    | .ok v =>
      match metricsTemplate v with
      | .error f => ⟨ui2, some f⟩
      | .ok markup => ⟨{ ui2 with document := { ui2.document with metricsHTML := markup } }, none⟩

/-- Modelled from the spec: `showLearningFeedback` is called by
`displayResponse` and defined nowhere in `static/chatbot.js`.  The spec gives
its interface: it accepts the opaque feedback value, returns nothing and
side-effects the DOM.  Its effect is kept as the list of the values it was
handed, apart from the regions the other methods write. -/
def showLearningFeedback (ui : NexusChatbotUI) (feedback : JSValue) : NexusChatbotUI :=
  { ui with document :=
      { ui.document with learningFeedback := ui.document.learningFeedback ++ [feedback] } }

/-- The last statement of `displayResponse`: the learning feedback, when the
response carries one. -/
def displayLearningFeedback (ui : NexusChatbotUI) (response : JSValue) : Outcome :=
  match getProp response "learning_feedback".toList with
  | .error f => ⟨ui, some f⟩
  | .ok feedback =>
    if toBoolean feedback then
      match getProp response "learning_feedback".toList with
      | .error f => ⟨ui, some f⟩
      | .ok arg => ⟨showLearningFeedback ui arg, none⟩
    else ⟨ui, none⟩

/-- The middle statement of `displayResponse`: the execution details, when
the response carries a summary. -/
def displayExecutionSummary (env : Env) (ui : NexusChatbotUI) (response : JSValue) : Outcome :=
  match getProp response "execution_summary".toList with
  | .error f => ⟨ui, some f⟩
  | .ok summary =>
    if toBoolean summary then
      match getProp response "execution_summary".toList with
      | .error f => ⟨ui, some f⟩
      | .ok arg => showExecutionDetails env ui arg
    else ⟨ui, none⟩

/-- The method `displayResponse(response)`: the assistant entry, then the
execution details, then the learning feedback. -/
def displayResponse (env : Env) (ui : NexusChatbotUI) (response : JSValue) : Outcome :=
  match getProp response "human_response".toList with
  | .error f => ⟨ui, some f⟩
  | .ok humanResponse =>
    ((addMessage ui "assistant".toList humanResponse).andThen fun ui1 =>
      displayExecutionSummary env ui1 response).andThen
        fun ui2 => displayLearningFeedback ui2 response

/-- The handler `ws.onmessage`: parse the frame, then display it.  The parse
error is not caught. -/
def onmessage (env : Env) (ui : NexusChatbotUI) (data : JSString) : Outcome :=
  match env.JSONparse data with
  | none => ⟨ui, some .syntaxError⟩
  | some response => displayResponse env ui response

/-- The `keypress` listener of `setupEventListeners`: `Enter` submits. -/
def onkeypress (env : Env) (ui : NexusChatbotUI) (key : JSString) : Outcome :=
  if key = "Enter".toList then sendMessage env ui else ⟨ui, none⟩

/-! ## Session identifier and construction -/

/-- A value `Math.random()` can return.  A double is a dyadic rational; the
value is `numerator / 2 ^ exponent`. -/
structure RandomValue where
  numerator : Nat
  exponent : Nat
  deriving DecidableEq

/-- The range of `Math.random()`: `0 ≤ x < 1`. -/
def RandomValue.inRange (x : RandomValue) : Prop := x.numerator < 2 ^ x.exponent

instance (x : RandomValue) : Decidable x.inRange := by
  unfold RandomValue.inRange; infer_instance

/-- The number one in units of `2 ^ -1074`, the least positive double.  Every
finite double is a whole number of these units, and the arithmetic of the
radix conversion is done on such whole numbers. -/
def oneUnits : Nat := 2 ^ 1074

/-- The number of low binary digits a number has beyond 53: how often it must
be halved to come below `2 ^ 53`.  The fuel is an upper bound of that count. -/
def excessDigits : Nat → Nat → Nat
  | 0, _ => 0
  | fuel + 1, n => if n < 2 ^ 53 then 0 else excessDigits fuel (n / 2) + 1

/-- Round a non-negative number of units to the nearest double, ties to even.
A number below `2 ^ 53` units is a double as it stands (the subnormals and the
first binade); a larger one keeps its 53 leading binary digits. -/
def roundToDouble (n : Nat) : Nat :=
  if n < 2 ^ 53 then n
  else
    let shift := excessDigits n n
    let kept := n / 2 ^ shift
    let dropped := n % 2 ^ shift
    if 2 ^ (shift - 1) < dropped ∨ (dropped = 2 ^ (shift - 1) ∧ kept % 2 = 1) then
      (kept + 1) * 2 ^ shift
    else kept * 2 ^ shift

/-- The distance from a positive double to the next larger double, in units:
one unit below `2 ^ 53` units, and the weight of the last of the 53 binary
digits above. -/
def nextDoubleGap (n : Nat) : Nat := 2 ^ excessDigits n n

/-- The value in units of `2 ^ -1074`. -/
def RandomValue.units (x : RandomValue) : Nat := x.numerator * 2 ^ (1074 - x.exponent)

/-- The value is a double: a whole number of units with at most 53
significant binary digits. -/
def RandomValue.isDouble (x : RandomValue) : Prop :=
  x.exponent ≤ 1074 ∧ roundToDouble x.units = x.units

instance (x : RandomValue) : Decidable x.isDouble := by
  unfold RandomValue.isDouble; infer_instance

/-- The radix-36 digit of a value below 36: `0`..`9`, `a`..`z`. -/
def base36Digit (n : Nat) : Char :=
  "0123456789abcdefghijklmnopqrstuvwxyz".toList.getD n (Char.ofNat 48)

/-- The backtrace of a carry in the radix conversion, on the digits written so
far, last written first: trailing digits `z` are dropped and the last digit
left is raised by one; when no digit is left the carry goes over to the
integer part, which the flag reports. -/
def carryOver : List Nat → Bool × List Nat
  | [] => (true, [])
  | digit :: written =>
    if digit + 1 < 36 then (false, (digit + 1) :: written) else carryOver written

/-- The digit loop of the radix conversion (`do ... while (fraction >= delta)`
in `DoubleToRadixCString` of V8; ECMAScript leaves the algorithm to the
engine), in double arithmetic: multiply `fraction` and `delta` by the radix,
each product rounded to a double; write the integer part of `fraction` as
digit and keep the remainder; stop with a carry when the remainder is above
one half (or is one half after an odd digit) and the rounded sum
`fraction + delta` is above one; go on while `fraction >= delta`.  The digits
are kept last written first.  The result is `none` when the fuel runs out. -/
def fractionLoop : Nat → Nat → Nat → List Nat → Option (Bool × List Nat)
  | 0, _, _, _ => none
  | fuel + 1, fraction, delta, written =>
    let fraction1 := roundToDouble (fraction * 36)
    let delta1 := roundToDouble (delta * 36)
    let digit := fraction1 / oneUnits
    let fraction2 := fraction1 - digit * oneUnits
    if (oneUnits / 2 < fraction2 ∨ (fraction2 = oneUnits / 2 ∧ digit % 2 = 1))
        ∧ oneUnits < roundToDouble (fraction2 + delta1) then
      some (carryOver (digit :: written))
    else if delta1 ≤ fraction2 then fractionLoop fuel fraction2 delta1 (digit :: written)
    else some (false, digit :: written)

/-- The precision up to which digits are computed: half the distance to the
next double, and at least the least positive double. -/
def initialDelta (n : Nat) : Nat := max 1 (nextDoubleGap n / 2)

/-- The call `x.toString(36)` for a double `0 ≤ x < 1`, as the engine computes
it: the text `0` for zero; otherwise the integer digit (`0`, or `1` after a
carry out of the fraction) and, when fraction digits were written, the point
and these digits.  Digits are written only up to the precision of x, the last
one rounded, so the text is as a rule shorter than the exact expansion.  The
loop is given 1075 steps, more than it can take (`fractionLoop_isSome`). -/
def toString36 (x : RandomValue) : JSString :=
  if x.units = 0 then "0".toList
  else if initialDelta x.units ≤ x.units then
    match (fractionLoop 1075 x.units (initialDelta x.units) []).getD (false, []) with
    | (carried, written) =>
      base36Digit (if carried then 1 else 0) ::
        (if written.isEmpty then [] else Char.ofNat 46 :: written.reverse.map base36Digit)
  else "0".toList

/-- The method `generateSessionId()`, on the value `Math.random()` returned. -/
def generateSessionId (random : RandomValue) : JSString :=
  "session_".toList ++ substr (toString36 random) 2 9

/-- The characters of the class `[0-9a-z]`. -/
def isBase36Char (c : Char) : Bool :=
  (48 ≤ c.toNat && c.toNat ≤ 57) || (97 ≤ c.toNat && c.toNat ≤ 122)

/-- Whether a string matches `session_[0-9a-z]{9}` as a whole. -/
def matchesSessionPattern (s : JSString) : Bool :=
  s.take 8 == "session_".toList && (s.drop 8).length == 9 && (s.drop 8).all isBase36Char

/-- The method `connectWebSocket()`: open a socket on
`ws://<host>/ws/<sessionId>`.  The handlers it installs are `onmessage` and a
logging `onopen`. -/
def connectWebSocket (location : Location) (ui : NexusChatbotUI) : NexusChatbotUI :=
  let socket : WebSocket :=
    { url := "ws://".toList ++ location.host ++ "/ws/".toList ++ ui.sessionId
      readyState := .CONNECTING
      sent := [] }
  { ui with ws := some socket }

/-- The constructor: no socket, a fresh session identifier, then
`connectWebSocket()`; `setupEventListeners()` installs `onkeypress`. -/
def NexusChatbotUI.constructor (location : Location) (random : RandomValue) (page : Dom) :
    NexusChatbotUI :=
  connectWebSocket location { ws := none, sessionId := generateSessionId random, document := page }

/-- The URL of the socket the client holds. -/
def NexusChatbotUI.url (ui : NexusChatbotUI) : Option JSString := ui.ws.map (·.url)

/-! ## Event sequences -/

/-- The two events that write the transcript: the user submits what the input
control holds, or a parsed response is displayed. -/
inductive Event where
  | submit (typed : JSString)
  | receive (response : JSValue)

/-- Run the handler of one event. -/
def dispatch (env : Env) (ui : NexusChatbotUI) : Event → Outcome
  | .submit typed =>
    sendMessage env { ui with document := { ui.document with messageInput := typed } }
  | .receive response => displayResponse env ui response

/-- Dispatch a sequence of events in order.  A fault ends its own handler
only; the next event runs on the state the faulted handler left. -/
def run (env : Env) (ui : NexusChatbotUI) : List Event → NexusChatbotUI
  | [] => ui
  | e :: rest => run env (dispatch env ui e).state rest

/-- The entry an event appends, if it appends one. -/
def Event.entry : Event → Option MessageDiv
  | .submit typed =>
    if (trim typed).isEmpty then none
    else some ⟨"message user".toList, "user: ".toList ++ trim typed⟩
  | .receive response =>
    match getProp response "human_response".toList with
    | .error _ => none
    | .ok humanResponse =>
      match toStr humanResponse with
      | .error _ => none
      | .ok shown => some ⟨"message assistant".toList, "assistant: ".toList ++ shown⟩

/-! ## Fixtures -/

/-- A page before any exchange. -/
def emptyPage : Dom :=
  { messageInput := []
    chatHistory := []
    chatScrolledToEnd := false
    executionDetailsDisplay := "none".toList
    graphViewerHTML := []
    metricsHTML := []
    learningFeedback := [] }

/-- The response `{"human_response":"hi there"}` of the specification. -/
def hiThere : JSValue := .obj (.cons "human_response".toList (.str "hi there".toList) .nil)

/-- An execution summary with graph `g1`, energy 1.5, cost 0.02, score 0.9
and the given `constraints_satisfied`. -/
def summaryG1 (satisfied : Bool) : JSValue :=
  .obj (.cons "ueir_graph_id".toList (.str "g1".toList)
    (.cons "metrics".toList
      (.obj (.cons "energy_joules".toList (.num "1.5".toList)
        (.cons "cost_dollars".toList (.num "0.02".toList)
          (.cons "performance_score".toList (.num "0.9".toList) .nil))))
      (.cons "constraints_satisfied".toList (.bool satisfied) .nil)))

/-- The response `{"human_response":"ok","execution_summary":...}` of the
specification. -/
def okWithSummary (satisfied : Bool) : JSValue :=
  .obj (.cons "human_response".toList (.str "ok".toList)
    (.cons "execution_summary".toList (summaryG1 satisfied) .nil))

/-- Surroundings for the examples: empty context objects, a placeholder graph,
and a parse table holding the frame `{"human_response":"hi there"}` of the
specification; any other text counts as malformed here. -/
def fixtureEnv : Env :=
  { getHardwarePreferences := .obj .nil
    getEnergyConstraints := .obj .nil
    getCostLimits := .obj .nil
    renderGraphVisualization := fun id =>
      match id with
      | .str name => "<div>Graph ".toList ++ name ++ "</div>".toList
      | _ => "<div>Graph</div>".toList
    JSONparse := fun text =>
      if text = "\x7b\"human_response\":\"hi there\"\x7d".toList then some hiThere else none }

/-- A client on the given page whose socket is in the given state. -/
def fixtureClient (readyState : ReadyState) (page : Dom) : NexusChatbotUI :=
  { ws := some { url := "ws://localhost/ws/session_0006enrk9".toList, readyState := readyState, sent := [] }
    sessionId := "session_0006enrk9".toList
    document := page }

end NexusChatbot

namespace NexusChatbot

/-! ## Lemmas on strings -/

theorem trimEnd_eq_nil_iff (s : JSString) :
    trimEnd s = [] ↔ ∀ c ∈ s, isWhiteSpace c = true := by
  simp [trimEnd, List.dropWhile_eq_nil_iff]

theorem trim_eq_nil_iff (s : JSString) :
    trim s = [] ↔ ∀ c ∈ s, isWhiteSpace c = true := by
  unfold trim trimStart
  rw [trimEnd_eq_nil_iff]
  constructor
  · intro h
    rw [← List.dropWhile_eq_nil_iff]
    cases hd : s.dropWhile isWhiteSpace with
    | nil => rfl
    | cons a l =>
      have h1 := List.head_dropWhile_not isWhiteSpace s (by simp [hd])
      have h2 := h a (by simp [hd])
      simp [hd] at h1
      simp [h1] at h2
  · intro h
    rw [(List.dropWhile_eq_nil_iff).2 h]
    simp

/-! ## C1 -/

/-- C1: when the input control holds only white space (or nothing),
`sendMessage` returns without a fault and leaves the whole client state as it
was: same transcript, same frames on the socket, same input value. -/
theorem sendMessage_blank_noop (env : Env) (ui : NexusChatbotUI)
    (hblank : ∀ c ∈ ui.document.messageInput, isWhiteSpace c = true) :
    sendMessage env ui = ⟨ui, none⟩ := by
  have h : trim ui.document.messageInput = [] := (trim_eq_nil_iff _).2 hblank
  simp [sendMessage, h]

theorem sendMessage_blank_noop_witness :
    (∀ c ∈ " \t ".toList, isWhiteSpace c = true) ∧
    sendMessage fixtureEnv (fixtureClient .OPEN { emptyPage with messageInput := " \t ".toList })
      = ⟨fixtureClient .OPEN { emptyPage with messageInput := " \t ".toList }, none⟩ :=
  ⟨by decide, sendMessage_blank_noop fixtureEnv
    (fixtureClient .OPEN { emptyPage with messageInput := " \t ".toList }) (by decide)⟩

/-! ## C2, C3 -/

/-- The text of the request envelope: `{"message":<quoted message>,"context":{`,
the context members that are not `undefined`, and `}}`. -/
theorem stringify_requestEnvelope (env : Env) (message : JSString) :
    JSONstringify (requestEnvelope env message) = some
      ("\x7b\"message\":".toList ++ quoteJSONString message ++ ",\"context\":\x7b".toList
        ++ serializeJSONObject
            (.cons "hardware_preferences".toList env.getHardwarePreferences
              (.cons "energy_constraints".toList env.getEnergyConstraints
                (.cons "cost_limits".toList env.getCostLimits .nil))) false
        ++ "\x7d\x7d".toList) := by
  have q1 : quoteJSONString "message".toList = "\"message\"".toList := by decide
  have q2 : quoteJSONString "context".toList = "\"context\"".toList := by decide
  simp only [JSONstringify, requestEnvelope, serializeJSONProperty, serializeJSONObject, q1, q2]
  simp

/-- The state `sendMessage` reaches on an open socket when the trimmed input
is not empty. -/
theorem sendMessage_open (env : Env) (ui : NexusChatbotUI) (ws : WebSocket)
    (hws : ui.ws = some ws) (hopen : ws.readyState = .OPEN)
    (ht : trim ui.document.messageInput ≠ []) :
    sendMessage env ui =
      ⟨{ ui with
          ws := some { ws with sent := ws.sent ++
            [(JSONstringify (requestEnvelope env (trim ui.document.messageInput))).getD
              "undefined".toList] }
          document := { ui.document with
            messageInput := []
            chatHistory := ui.document.chatHistory ++
              [⟨"message user".toList, "user: ".toList ++ trim ui.document.messageInput⟩]
            chatScrolledToEnd := true } }, none⟩ := by
  simp [sendMessage, ht, addMessage, Outcome.andThen, hws, WebSocket.send, hopen, toStr]

/-- C2: when the trimmed input `t` is not empty and the socket is open,
`sendMessage` returns without a fault, appends exactly one transcript entry,
of class `message user` and text `user: t`, clears the input control, and
transmits exactly one frame, whose text is `{"message":<t quoted>,"context":`
followed by the context. -/
theorem sendMessage_appends_user_entry_and_sends (env : Env) (ui : NexusChatbotUI)
    (ws : WebSocket) (hws : ui.ws = some ws) (hopen : ws.readyState = .OPEN)
    (ht : trim ui.document.messageInput ≠ []) :
    (sendMessage env ui).fault = none ∧
    (sendMessage env ui).state.document.chatHistory = ui.document.chatHistory ++
      [⟨"message user".toList, "user: ".toList ++ trim ui.document.messageInput⟩] ∧
    (sendMessage env ui).state.document.messageInput = [] ∧
    ∃ context : JSString, (sendMessage env ui).state.ws.map (·.sent) = some (ws.sent ++
      ["\x7b\"message\":".toList ++ quoteJSONString (trim ui.document.messageInput)
        ++ ",\"context\":".toList ++ context]) := by
  rw [sendMessage_open env ui ws hws hopen ht, stringify_requestEnvelope]
  refine ⟨rfl, rfl, rfl, ?_⟩
  refine ⟨Char.ofNat 123 :: (serializeJSONObject
    (.cons "hardware_preferences".toList env.getHardwarePreferences
      (.cons "energy_constraints".toList env.getEnergyConstraints
        (.cons "cost_limits".toList env.getCostLimits .nil))) false ++ "\x7d\x7d".toList), ?_⟩
  simp

theorem sendMessage_appends_user_entry_and_sends_witness :
    (sendMessage fixtureEnv
      (fixtureClient .OPEN { emptyPage with messageInput := " hello ".toList })).fault = none ∧
    (sendMessage fixtureEnv
      (fixtureClient .OPEN { emptyPage with messageInput := " hello ".toList })).state.document.chatHistory
      = [⟨"message user".toList, "user: hello".toList⟩] ∧
    (sendMessage fixtureEnv
      (fixtureClient .OPEN { emptyPage with messageInput := " hello ".toList })).state.document.messageInput
      = [] ∧
    ∃ context : JSString, (sendMessage fixtureEnv
      (fixtureClient .OPEN { emptyPage with messageInput := " hello ".toList })).state.ws.map (·.sent)
      = some [("\x7b\"message\":\"hello\",\"context\":".toList ++ context)] :=
  sendMessage_appends_user_entry_and_sends fixtureEnv
    (fixtureClient .OPEN { emptyPage with messageInput := " hello ".toList })
    { url := "ws://localhost/ws/session_0006enrk9".toList, readyState := .OPEN, sent := [] }
    rfl rfl (by decide)

/-- C3: when the trimmed input `t` is not empty and the socket is open, the one
frame `sendMessage` transmits is `JSON.stringify` of the object with exactly
the members `message: t` and `context`, the context having exactly the members
`hardware_preferences`, `energy_constraints` and `cost_limits` with the values
the three accessors returned; when each of the three values has a JSON text,
the frame is these texts under their keys, in this order. -/
theorem sendMessage_frame_is_envelope (env : Env) (ui : NexusChatbotUI)
    (ws : WebSocket) (hws : ui.ws = some ws) (hopen : ws.readyState = .OPEN)
    (ht : trim ui.document.messageInput ≠ []) :
    ∃ frame : JSString,
      JSONstringify (.obj (.cons "message".toList (.str (trim ui.document.messageInput))
        (.cons "context".toList
          (.obj (.cons "hardware_preferences".toList env.getHardwarePreferences
            (.cons "energy_constraints".toList env.getEnergyConstraints
              (.cons "cost_limits".toList env.getCostLimits .nil))))
          .nil))) = some frame ∧
      (sendMessage env ui).state.ws.map (·.sent) = some (ws.sent ++ [frame]) ∧
      ∀ h e c : JSString,
        serializeJSONProperty env.getHardwarePreferences = some h →
        serializeJSONProperty env.getEnergyConstraints = some e →
        serializeJSONProperty env.getCostLimits = some c →
        frame = "\x7b\"message\":".toList ++ quoteJSONString (trim ui.document.messageInput)
          ++ ",\"context\":\x7b\"hardware_preferences\":".toList ++ h
          ++ ",\"energy_constraints\":".toList ++ e
          ++ ",\"cost_limits\":".toList ++ c ++ "\x7d\x7d".toList := by
  have hs := stringify_requestEnvelope env (trim ui.document.messageInput)
  refine ⟨_, hs, ?_, ?_⟩
  · rw [sendMessage_open env ui ws hws hopen ht, hs]
    rfl
  · intro h e c hh he hc
    have q1 : quoteJSONString "hardware_preferences".toList = "\"hardware_preferences\"".toList := by
      decide
    have q2 : quoteJSONString "energy_constraints".toList = "\"energy_constraints\"".toList := by
      decide
    have q3 : quoteJSONString "cost_limits".toList = "\"cost_limits\"".toList := by decide
    simp only [serializeJSONObject, hh, he, hc, q1, q2, q3]
    simp

theorem sendMessage_frame_is_envelope_witness :
    ∃ frame : JSString,
      JSONstringify (.obj (.cons "message".toList (.str "hello".toList)
        (.cons "context".toList
          (.obj (.cons "hardware_preferences".toList (.obj .nil)
            (.cons "energy_constraints".toList (.obj .nil)
              (.cons "cost_limits".toList (.obj .nil) .nil))))
          .nil))) = some frame ∧
      (sendMessage fixtureEnv
        (fixtureClient .OPEN { emptyPage with messageInput := "hello\n".toList })).state.ws.map
          (·.sent) = some [frame] ∧
      ∀ h e c : JSString,
        serializeJSONProperty (.obj .nil) = some h →
        serializeJSONProperty (.obj .nil) = some e →
        serializeJSONProperty (.obj .nil) = some c →
        frame = "\x7b\"message\":\"hello\",\"context\":\x7b\"hardware_preferences\":".toList ++ h
          ++ ",\"energy_constraints\":".toList ++ e
          ++ ",\"cost_limits\":".toList ++ c ++ "\x7d\x7d".toList :=
  sendMessage_frame_is_envelope fixtureEnv
    (fixtureClient .OPEN { emptyPage with messageInput := "hello\n".toList })
    { url := "ws://localhost/ws/session_0006enrk9".toList, readyState := .OPEN, sent := [] }
    rfl rfl (by decide)

/-! ## C4, C5 -/

/-- The learning-feedback step writes neither the transcript nor the details
panel, the graph viewer or the metrics display. -/
theorem displayLearningFeedback_frame (ui : NexusChatbotUI) (members : JSMembers) :
    (displayLearningFeedback ui (.obj members)).fault = none ∧
    (displayLearningFeedback ui (.obj members)).state.document.chatHistory
      = ui.document.chatHistory ∧
    (displayLearningFeedback ui (.obj members)).state.document.executionDetailsDisplay
      = ui.document.executionDetailsDisplay ∧
    (displayLearningFeedback ui (.obj members)).state.document.graphViewerHTML
      = ui.document.graphViewerHTML ∧
    (displayLearningFeedback ui (.obj members)).state.document.metricsHTML
      = ui.document.metricsHTML := by
  unfold displayLearningFeedback
  simp only [getProp]
  split <;> simp [showLearningFeedback]

/-- The state `addMessage` reaches when the text can be converted. -/
theorem addMessage_ok (ui : NexusChatbotUI) (sender : JSString) (text : JSValue)
    (shown : JSString) (h : toStr text = .ok shown) :
    addMessage ui sender text =
      ⟨{ ui with document := { ui.document with
          chatHistory := ui.document.chatHistory ++
            [⟨"message ".toList ++ sender, sender ++ ": ".toList ++ shown⟩]
          chatScrolledToEnd := true } }, none⟩ := by
  simp only [addMessage, h]

/-- C4: for a response with a string `human_response` r and no
`execution_summary`, `displayResponse` returns without a fault, appends exactly
one transcript entry, of class `message assistant` and text `assistant: r`,
and leaves the display of the details panel, the graph viewer and the metrics
display as they were. -/
theorem displayResponse_without_summary (env : Env) (ui : NexusChatbotUI)
    (members : JSMembers) (r : JSString)
    (hr : members.find "human_response".toList = .str r)
    (hs : members.find "execution_summary".toList = .undefined) :
    (displayResponse env ui (.obj members)).fault = none ∧
    (displayResponse env ui (.obj members)).state.document.chatHistory
      = ui.document.chatHistory ++ [⟨"message assistant".toList, "assistant: ".toList ++ r⟩] ∧
    (displayResponse env ui (.obj members)).state.document.executionDetailsDisplay
      = ui.document.executionDetailsDisplay ∧
    (displayResponse env ui (.obj members)).state.document.graphViewerHTML
      = ui.document.graphViewerHTML ∧
    (displayResponse env ui (.obj members)).state.document.metricsHTML
      = ui.document.metricsHTML := by
  have ha := addMessage_ok ui "assistant".toList (.str r) r (by simp only [toStr])
  have h : displayResponse env ui (.obj members)
      = displayLearningFeedback (addMessage ui "assistant".toList (.str r)).state
          (.obj members) := by
    simp only [displayResponse, displayExecutionSummary, Outcome.andThen, getProp, hr, hs,
      toBoolean, Bool.false_eq_true, if_false, ha]
  rw [h]
  obtain ⟨h1, h2, h3, h4, h5⟩ :=
    displayLearningFeedback_frame (addMessage ui "assistant".toList (.str r)).state members
  refine ⟨h1, ?_, ?_, ?_, ?_⟩
  · rw [h2, ha]
    rfl
  · rw [h3, ha]
  · rw [h4, ha]
  · rw [h5, ha]

theorem displayResponse_without_summary_witness :
    (displayResponse fixtureEnv (fixtureClient .OPEN emptyPage) hiThere).fault = none ∧
    (displayResponse fixtureEnv (fixtureClient .OPEN emptyPage) hiThere).state.document.chatHistory
      = [⟨"message assistant".toList, "assistant: hi there".toList⟩] ∧
    (displayResponse fixtureEnv (fixtureClient .OPEN emptyPage)
      hiThere).state.document.executionDetailsDisplay = "none".toList ∧
    (displayResponse fixtureEnv (fixtureClient .OPEN emptyPage) hiThere).state.document.graphViewerHTML
      = [] ∧
    (displayResponse fixtureEnv (fixtureClient .OPEN emptyPage) hiThere).state.document.metricsHTML
      = [] :=
  displayResponse_without_summary fixtureEnv (fixtureClient .OPEN emptyPage)
    (.cons "human_response".toList (.str "hi there".toList) .nil) "hi there".toList
    rfl rfl

/-- The state `showExecutionDetails` reaches on a summary that carries
`metrics` whose three values have a text. -/
theorem showExecutionDetails_ok (env : Env) (ui : NexusChatbotUI)
    (summary metrics : JSMembers) (e c p : JSString)
    (hm : summary.find "metrics".toList = .obj metrics)
    (he : toStr (metrics.find "energy_joules".toList) = .ok e)
    (hc : toStr (metrics.find "cost_dollars".toList) = .ok c)
    (hp : toStr (metrics.find "performance_score".toList) = .ok p) :
    showExecutionDetails env ui (.obj summary) =
      ⟨{ ui with document := { ui.document with
          executionDetailsDisplay := "block".toList
          graphViewerHTML := env.renderGraphVisualization (summary.find "ueir_graph_id".toList)
          metricsHTML := metricsMarkup e c p
            (toBoolean (summary.find "constraints_satisfied".toList)) } }, none⟩ := by
  simp only [showExecutionDetails, getProp, readMetrics, hm, bind, Except.bind, pure, Except.pure,
    metricsTemplate, he, hc, hp]

/-- The energy, followed by ` J`, is part of the metrics markup. -/
theorem energy_in_metricsMarkup (e c p : JSString) (b : Bool) :
    e ++ " J".toList <:+: metricsMarkup e c p b := by
  have h : " J</li>\n                <li>Cost: $".toList
      = " J".toList ++ "</li>\n                <li>Cost: $".toList := by decide
  have eq : metricsMarkup e c p b =
      "\n            <h4>Execution Metrics</h4>\n            <ul>\n                <li>Energy Used: ".toList
      ++ (e ++ " J".toList)
      ++ ("</li>\n                <li>Cost: $".toList ++ c
        ++ "</li>\n                <li>Performance Score: ".toList ++ p
        ++ "</li>\n                <li>Constraints Satisfied: ".toList
        ++ (if b then "Yes".toList else "No".toList)
        ++ "</li>\n            </ul>\n        ".toList) := by
    simp only [metricsMarkup, h, List.append_assoc]
  rw [eq]
  exact List.infix_append _ _ _

/-- The cost, preceded by `$`, is part of the metrics markup. -/
theorem cost_in_metricsMarkup (e c p : JSString) (b : Bool) :
    "$".toList ++ c <:+: metricsMarkup e c p b := by
  have h : " J</li>\n                <li>Cost: $".toList
      = " J</li>\n                <li>Cost: ".toList ++ "$".toList := by decide
  have eq : metricsMarkup e c p b =
      ("\n            <h4>Execution Metrics</h4>\n            <ul>\n                <li>Energy Used: ".toList
        ++ e ++ " J</li>\n                <li>Cost: ".toList)
      ++ ("$".toList ++ c)
      ++ ("</li>\n                <li>Performance Score: ".toList ++ p
        ++ "</li>\n                <li>Constraints Satisfied: ".toList
        ++ (if b then "Yes".toList else "No".toList)
        ++ "</li>\n            </ul>\n        ".toList) := by
    simp only [metricsMarkup, h, List.append_assoc]
  rw [eq]
  exact List.infix_append _ _ _

/-- The performance score is part of the metrics markup. -/
theorem score_in_metricsMarkup (e c p : JSString) (b : Bool) :
    p <:+: metricsMarkup e c p b := by
  have eq : metricsMarkup e c p b =
      ("\n            <h4>Execution Metrics</h4>\n            <ul>\n                <li>Energy Used: ".toList
        ++ e ++ " J</li>\n                <li>Cost: $".toList
        ++ c ++ "</li>\n                <li>Performance Score: ".toList)
      ++ p
      ++ ("</li>\n                <li>Constraints Satisfied: ".toList
        ++ (if b then "Yes".toList else "No".toList)
        ++ "</li>\n            </ul>\n        ".toList) := by
    simp only [metricsMarkup, List.append_assoc]
  rw [eq]
  exact List.infix_append _ _ _

/-- The word `Yes` or `No` of the constraints is part of the metrics markup. -/
theorem verdict_in_metricsMarkup (e c p : JSString) (b : Bool) :
    (if b then "Yes".toList else "No".toList) <:+: metricsMarkup e c p b := by
  have eq : metricsMarkup e c p b =
      ("\n            <h4>Execution Metrics</h4>\n            <ul>\n                <li>Energy Used: ".toList
        ++ e ++ " J</li>\n                <li>Cost: $".toList
        ++ c ++ "</li>\n                <li>Performance Score: ".toList
        ++ p ++ "</li>\n                <li>Constraints Satisfied: ".toList)
      ++ (if b then "Yes".toList else "No".toList)
      ++ "</li>\n            </ul>\n        ".toList := by
    simp only [metricsMarkup, List.append_assoc]
  rw [eq]
  exact List.infix_append _ _ _

/-- On a response whose `human_response` has a text and that carries an
`execution_summary` with `metrics` whose three values have a text,
`displayResponse` runs `showExecutionDetails` on the state with the assistant
entry appended and then the learning-feedback step. -/
theorem displayResponse_with_summary (env : Env) (ui : NexusChatbotUI)
    (response summary metrics : JSMembers) (shown e c p : JSString)
    (hh : toStr (response.find "human_response".toList) = .ok shown)
    (hs : response.find "execution_summary".toList = .obj summary)
    (hm : summary.find "metrics".toList = .obj metrics)
    (he : toStr (metrics.find "energy_joules".toList) = .ok e)
    (hc : toStr (metrics.find "cost_dollars".toList) = .ok c)
    (hp : toStr (metrics.find "performance_score".toList) = .ok p) :
    displayResponse env ui (.obj response) =
      displayLearningFeedback
        (showExecutionDetails env
          (addMessage ui "assistant".toList (response.find "human_response".toList)).state
          (.obj summary)).state (.obj response) := by
  simp only [displayResponse, displayExecutionSummary, Outcome.andThen, getProp, hs, toBoolean,
    if_true, showExecutionDetails_ok _ _ _ _ e c p hm he hc hp, addMessage_ok _ _ _ _ hh]

/-- C5: for a response carrying an `execution_summary` whose `metrics` hold
energy E, cost C and score P, with the texts e, c and p, and whose
`constraints_satisfied` is the boolean b, `showExecutionDetails` returns
without a fault, sets the display of the details panel to `block` and writes
metrics markup that contains e followed by ` J`, `$` followed by c, p, and
`Yes` when b is true, `No` when b is false; `displayResponse`, when the
`human_response` has a text, leaves the panel and the markup in that state. -/
theorem showExecutionDetails_renders_metrics (env : Env) (ui : NexusChatbotUI)
    (response summary metrics : JSMembers) (E C P : JSValue) (b : Bool)
    (shown e c p : JSString)
    (hs : response.find "execution_summary".toList = .obj summary)
    (hm : summary.find "metrics".toList = .obj metrics)
    (hE : metrics.find "energy_joules".toList = E)
    (hC : metrics.find "cost_dollars".toList = C)
    (hP : metrics.find "performance_score".toList = P)
    (hb : summary.find "constraints_satisfied".toList = .bool b)
    (he : toStr E = .ok e) (hc : toStr C = .ok c) (hp : toStr P = .ok p)
    (hh : toStr (response.find "human_response".toList) = .ok shown) :
    (showExecutionDetails env ui (.obj summary)).fault = none ∧
    (showExecutionDetails env ui (.obj summary)).state.document.executionDetailsDisplay
      = "block".toList ∧
    e ++ " J".toList
      <:+: (showExecutionDetails env ui (.obj summary)).state.document.metricsHTML ∧
    "$".toList ++ c
      <:+: (showExecutionDetails env ui (.obj summary)).state.document.metricsHTML ∧
    p <:+: (showExecutionDetails env ui (.obj summary)).state.document.metricsHTML ∧
    (if b then "Yes".toList else "No".toList)
      <:+: (showExecutionDetails env ui (.obj summary)).state.document.metricsHTML ∧
    (displayResponse env ui (.obj response)).fault = none ∧
    (displayResponse env ui (.obj response)).state.document.executionDetailsDisplay
      = "block".toList ∧
    (displayResponse env ui (.obj response)).state.document.metricsHTML
      = (showExecutionDetails env ui (.obj summary)).state.document.metricsHTML := by
  subst hE hC hP
  obtain ⟨f1, -, f3, -, f5⟩ := displayLearningFeedback_frame
    (showExecutionDetails env
      (addMessage ui "assistant".toList (response.find "human_response".toList)).state
      (.obj summary)).state response
  rw [displayResponse_with_summary env ui response summary metrics shown e c p hh hs hm he hc hp,
    f3, f5, f1, showExecutionDetails_ok _ _ _ _ e c p hm he hc hp,
    showExecutionDetails_ok _ _ _ _ e c p hm he hc hp, hb]
  exact ⟨rfl, rfl, energy_in_metricsMarkup e c p b, cost_in_metricsMarkup e c p b,
    score_in_metricsMarkup e c p b, verdict_in_metricsMarkup e c p b, rfl, rfl, rfl⟩

theorem showExecutionDetails_renders_metrics_witness :
    (showExecutionDetails fixtureEnv (fixtureClient .OPEN emptyPage) (summaryG1 true)).fault
      = none ∧
    (showExecutionDetails fixtureEnv (fixtureClient .OPEN emptyPage)
      (summaryG1 true)).state.document.executionDetailsDisplay = "block".toList ∧
    "1.5".toList ++ " J".toList <:+: (showExecutionDetails fixtureEnv
      (fixtureClient .OPEN emptyPage) (summaryG1 true)).state.document.metricsHTML ∧
    "$".toList ++ "0.02".toList <:+: (showExecutionDetails fixtureEnv
      (fixtureClient .OPEN emptyPage) (summaryG1 true)).state.document.metricsHTML ∧
    "0.9".toList <:+: (showExecutionDetails fixtureEnv (fixtureClient .OPEN emptyPage)
      (summaryG1 true)).state.document.metricsHTML ∧
    (if true then "Yes".toList else "No".toList) <:+: (showExecutionDetails fixtureEnv
      (fixtureClient .OPEN emptyPage) (summaryG1 true)).state.document.metricsHTML ∧
    (displayResponse fixtureEnv (fixtureClient .OPEN emptyPage) (okWithSummary true)).fault
      = none ∧
    (displayResponse fixtureEnv (fixtureClient .OPEN emptyPage)
      (okWithSummary true)).state.document.executionDetailsDisplay = "block".toList ∧
    (displayResponse fixtureEnv (fixtureClient .OPEN emptyPage)
      (okWithSummary true)).state.document.metricsHTML
      = (showExecutionDetails fixtureEnv (fixtureClient .OPEN emptyPage)
        (summaryG1 true)).state.document.metricsHTML :=
  showExecutionDetails_renders_metrics fixtureEnv (fixtureClient .OPEN emptyPage)
    (.cons "human_response".toList (.str "ok".toList)
      (.cons "execution_summary".toList (summaryG1 true) .nil))
    (.cons "ueir_graph_id".toList (.str "g1".toList)
      (.cons "metrics".toList
        (.obj (.cons "energy_joules".toList (.num "1.5".toList)
          (.cons "cost_dollars".toList (.num "0.02".toList)
            (.cons "performance_score".toList (.num "0.9".toList) .nil))))
        (.cons "constraints_satisfied".toList (.bool true) .nil)))
    (.cons "energy_joules".toList (.num "1.5".toList)
      (.cons "cost_dollars".toList (.num "0.02".toList)
        (.cons "performance_score".toList (.num "0.9".toList) .nil)))
    (.num "1.5".toList) (.num "0.02".toList) (.num "0.9".toList) true
    "ok".toList "1.5".toList "0.02".toList "0.9".toList
    rfl rfl rfl rfl rfl rfl (by simp only [toStr]) (by simp only [toStr]) (by simp only [toStr])
    (by simp [JSMembers.find, toStr])

/-! ## C6 -/

/-- The method `addMessage` leaves the transcript it found in place and
appends at most one entry. -/
theorem addMessage_chatHistory (ui : NexusChatbotUI) (sender : JSString) (text : JSValue) :
    (addMessage ui sender text).state.document.chatHistory = ui.document.chatHistory ++
      (match toStr text with
        | .error _ => []
        | .ok shown => [⟨"message ".toList ++ sender, sender ++ ": ".toList ++ shown⟩]) := by
  unfold addMessage
  split <;> simp

/-- The method `showExecutionDetails` never writes the transcript, whatever
the summary and whether or not it faults. -/
theorem showExecutionDetails_chatHistory (env : Env) (ui : NexusChatbotUI) (summary : JSValue) :
    (showExecutionDetails env ui summary).state.document.chatHistory
      = ui.document.chatHistory := by
  unfold showExecutionDetails
  split
  · rfl
  · split
    · rfl
    · split <;> rfl

/-- The learning-feedback step never writes the transcript. -/
theorem displayLearningFeedback_chatHistory (ui : NexusChatbotUI) (response : JSValue) :
    (displayLearningFeedback ui response).state.document.chatHistory
      = ui.document.chatHistory := by
  unfold displayLearningFeedback
  split
  · rfl
  · split
    · split <;> rfl
    · rfl

/-- The execution-details step never writes the transcript. -/
theorem displayExecutionSummary_chatHistory (env : Env) (ui : NexusChatbotUI)
    (response : JSValue) :
    (displayExecutionSummary env ui response).state.document.chatHistory
      = ui.document.chatHistory := by
  unfold displayExecutionSummary
  split
  · rfl
  · split
    · split
      · rfl
      · exact showExecutionDetails_chatHistory _ _ _
    · rfl

/-- A step that does not write the transcript does not write it after another
statement either. -/
theorem andThen_chatHistory (o : Outcome) (next : NexusChatbotUI → Outcome)
    (h : ∀ ui, (next ui).state.document.chatHistory = ui.document.chatHistory) :
    (o.andThen next).state.document.chatHistory = o.state.document.chatHistory := by
  unfold Outcome.andThen
  split
  · rfl
  · exact h _

/-- The transcript after `sendMessage`: one more entry when the trimmed input
is not empty, whatever the state of the socket. -/
theorem sendMessage_chatHistory (env : Env) (ui : NexusChatbotUI) :
    (sendMessage env ui).state.document.chatHistory = ui.document.chatHistory ++
      (Event.entry (.submit ui.document.messageInput)).toList := by
  unfold sendMessage Event.entry
  by_cases h : (trim ui.document.messageInput).isEmpty = true
  · simp [h]
  · simp only [h, Bool.false_eq_true, if_false]
    rw [andThen_chatHistory, addMessage_chatHistory]
    · simp [toStr]
    · intro ui1
      dsimp only
      split
      · rfl
      · split <;> rfl

/-- The transcript after `displayResponse`: one more entry when the response
is neither `undefined` nor `null` and its `human_response` has a text. -/
theorem displayResponse_chatHistory (env : Env) (ui : NexusChatbotUI) (response : JSValue) :
    (displayResponse env ui response).state.document.chatHistory = ui.document.chatHistory ++
      (Event.entry (.receive response)).toList := by
  rcases h : getProp response "human_response".toList with f | humanResponse
  · simp only [displayResponse, Event.entry, h, Option.toList, List.append_nil]
  · simp only [displayResponse, Event.entry, h]
    rw [andThen_chatHistory _ _ (fun ui2 => displayLearningFeedback_chatHistory ui2 response),
      andThen_chatHistory _ _ (fun ui1 => displayExecutionSummary_chatHistory env ui1 response),
      addMessage_chatHistory]
    cases toStr humanResponse <;> rfl

/-- A response whose `human_response` is an object with an own property
`toString` cannot be converted to text: `displayResponse` ends in the
`TypeError` of the template literal of `addMessage` and appends nothing. -/
theorem displayResponse_unprintable :
    (displayResponse fixtureEnv (fixtureClient .OPEN emptyPage)
      (.obj (.cons "human_response".toList
        (.obj (.cons "toString".toList (.str "x".toList) .nil)) .nil))).fault
      = some .typeError ∧
    (displayResponse fixtureEnv (fixtureClient .OPEN emptyPage)
      (.obj (.cons "human_response".toList
        (.obj (.cons "toString".toList (.str "x".toList) .nil)) .nil))).state.document.chatHistory
      = [] ∧
    Event.entry (.receive (.obj (.cons "human_response".toList
        (.obj (.cons "toString".toList (.str "x".toList) .nil)) .nil))) = none := by
  decide!

/-- Every event leaves the transcript it found in place and appends the entry
of the event, if it has one, at the end. -/
theorem dispatch_chatHistory (env : Env) (ui : NexusChatbotUI) (e : Event) :
    (dispatch env ui e).state.document.chatHistory
      = ui.document.chatHistory ++ e.entry.toList := by
  cases e with
  | submit typed =>
    have := sendMessage_chatHistory env
      { ui with document := { ui.document with messageInput := typed } }
    exact this
  | receive response => exact displayResponse_chatHistory env ui response

/-- The transcript after a sequence of events: the transcript before, followed
by the entries of the events in dispatch order. -/
theorem run_chatHistory (env : Env) (es : List Event) (ui : NexusChatbotUI) :
    (run env ui es).document.chatHistory
      = ui.document.chatHistory ++ es.filterMap Event.entry := by
  induction es generalizing ui with
  | nil => simp [run]
  | cons e rest ih =>
    rw [run, ih, dispatch_chatHistory]
    cases h : e.entry <;> simp [List.filterMap_cons, h]

/-- C6, as stated, fails: one submit event on a blank input control is a
sequence of one event that leaves the transcript with no entry. -/
theorem transcript_length_counterexample :
    [Event.submit "  ".toList].length = 1 ∧
    (run fixtureEnv (fixtureClient .OPEN emptyPage)
      [Event.submit "  ".toList]).document.chatHistory.length = 0 := by
  decide

/-- C6, amended: the transcript is append-only and order-preserving.  After any
sequence of submit and receive events the transcript is the transcript before
followed by the entries of the events in dispatch order, each event giving at
most one; and when every event gives an entry (a submit of input that is not
blank, a receive of a response other than `undefined` and `null`), N events
add exactly N entries, the k-th of them being the entry of the k-th event. -/
theorem transcript_append_only (env : Env) (ui : NexusChatbotUI) (es : List Event) :
    (run env ui es).document.chatHistory
      = ui.document.chatHistory ++ es.filterMap Event.entry ∧
    ((∀ e ∈ es, e.entry.isSome = true) →
      (run env ui es).document.chatHistory.length
        = ui.document.chatHistory.length + es.length ∧
      ∀ k, k < es.length →
        (run env ui es).document.chatHistory[ui.document.chatHistory.length + k]?
          = (es[k]?).bind Event.entry) := by
  refine ⟨run_chatHistory env es ui, fun hall => ?_⟩
  have hmap : es.filterMap Event.entry = es.map (fun e => (e.entry).getD ⟨[], []⟩) := by
    clear ui
    induction es with
    | nil => rfl
    | cons e rest ih =>
      have he := hall e (List.mem_cons_self _ _)
      obtain ⟨d, hd⟩ := Option.isSome_iff_exists.1 he
      rw [List.filterMap_cons, hd, List.map_cons, hd,
        ih (fun x hx => hall x (List.mem_cons_of_mem _ hx))]
      rfl
  rw [run_chatHistory, hmap]
  refine ⟨by simp, fun k hk => ?_⟩
  rw [List.getElem?_append_right (Nat.le_add_right _ _), Nat.add_sub_cancel_left,
    List.getElem?_map, List.getElem?_eq_getElem hk]
  obtain ⟨d, hd⟩ := Option.isSome_iff_exists.1 (hall es[k] (List.getElem_mem _))
  simp [hd]

theorem transcript_append_only_witness :
    (∀ e ∈ [Event.submit "hello".toList, Event.receive hiThere], e.entry.isSome = true) ∧
    (run fixtureEnv (fixtureClient .OPEN emptyPage)
      [.submit "hello".toList, .receive hiThere]).document.chatHistory.length
        = (fixtureClient .OPEN emptyPage).document.chatHistory.length
          + [Event.submit "hello".toList, Event.receive hiThere].length ∧
    ∀ k, k < [Event.submit "hello".toList, Event.receive hiThere].length →
      (run fixtureEnv (fixtureClient .OPEN emptyPage)
        [.submit "hello".toList, .receive hiThere]).document.chatHistory[
          (fixtureClient .OPEN emptyPage).document.chatHistory.length + k]?
        = ([Event.submit "hello".toList, Event.receive hiThere][k]?).bind Event.entry :=
  ⟨by decide!,
    (transcript_append_only fixtureEnv (fixtureClient .OPEN emptyPage)
      [.submit "hello".toList, .receive hiThere]).2 (by decide!)⟩

/-! ## C7 -/

/-- Every digit is written with a character of `[0-9a-z]`. -/
theorem base36Digit_isBase36Char (k : Nat) : isBase36Char (base36Digit k) = true := by
  have h36 : ∀ j < 36, isBase36Char (base36Digit j) = true := by decide
  by_cases h : k < 36
  · exact h36 k h
  · unfold base36Digit
    rw [List.getD_eq_default _ _ (by simpa using h)]
    decide

/-- The digits dropped weigh no more than the number itself. -/
theorem two_pow_excessDigits_le :
    ∀ (fuel n : Nat), n ≠ 0 → 2 ^ excessDigits fuel n ≤ n := by
  intro fuel
  induction fuel with
  | zero =>
    intro n hn
    simp only [excessDigits, Nat.pow_zero]
    omega
  | succ fuel ih =>
    intro n hn
    rw [excessDigits]
    split
    · simp only [Nat.pow_zero]
      omega
    · rename_i hbig
      have h53 : 2 ≤ 2 ^ 53 := by decide
      have hhalf : n / 2 ≠ 0 := by omega
      have := ih (n / 2) hhalf
      rw [Nat.pow_succ]
      omega

/-- Rounding to a double loses less than half of the number. -/
theorem le_two_mul_roundToDouble (n : Nat) : n ≤ 2 * roundToDouble n := by
  unfold roundToDouble
  split
  · omega
  · rename_i hbig
    have hn : n ≠ 0 := by
      intro h0
      rw [h0] at hbig
      exact hbig (Nat.two_pow_pos 53)
    have hpow : 2 ^ excessDigits n n ≤ n := two_pow_excessDigits_le n n hn
    have hP : 0 < 2 ^ excessDigits n n := Nat.two_pow_pos _
    have hq : 0 < n / 2 ^ excessDigits n n := Nat.div_pos hpow hP
    have hdm := Nat.div_add_mod n (2 ^ excessDigits n n)
    have hr := Nat.mod_lt n hP
    have hqP : 2 ^ excessDigits n n ≤ n / 2 ^ excessDigits n n * 2 ^ excessDigits n n :=
      Nat.le_mul_of_pos_left _ hq
    have hcomm : 2 ^ excessDigits n n * (n / 2 ^ excessDigits n n)
        = n / 2 ^ excessDigits n n * 2 ^ excessDigits n n := Nat.mul_comm _ _
    have hsucc : (n / 2 ^ excessDigits n n + 1) * 2 ^ excessDigits n n
        = n / 2 ^ excessDigits n n * 2 ^ excessDigits n n + 2 ^ excessDigits n n :=
      Nat.succ_mul _ _
    dsimp only
    split <;> omega

/-- One is a positive number of units. -/
theorem oneUnits_pos : 0 < oneUnits := by
  unfold oneUnits
  positivity

/-- The digit loop ends within its fuel: `delta` at least doubles with every
digit, the remainder stays below one, and the loop goes on only while the
remainder is at least `delta`. -/
theorem fractionLoop_isSome_of_le :
    ∀ (fuel fraction delta : Nat) (written : List Nat), oneUnits ≤ 2 ^ (fuel + 1) * delta →
      (fractionLoop (fuel + 1) fraction delta written).isSome = true := by
  intro fuel
  induction fuel with
  | zero =>
    intro fraction delta written hle
    have h2 := le_two_mul_roundToDouble (delta * 36)
    have hone : 0 < oneUnits := oneUnits_pos
    have hdm := Nat.div_add_mod (roundToDouble (fraction * 36)) oneUnits
    have hlt := Nat.mod_lt (roundToDouble (fraction * 36)) hone
    have hc : roundToDouble (fraction * 36) / oneUnits * oneUnits
        = oneUnits * (roundToDouble (fraction * 36) / oneUnits) := Nat.mul_comm _ _
    rw [fractionLoop]
    split
    · rfl
    · split
      · omega
      · rfl
  | succ fuel ih =>
    intro fraction delta written hle
    have h2 := le_two_mul_roundToDouble (delta * 36)
    rw [fractionLoop]
    split
    · rfl
    · split
      · apply ih
        have hmono : 2 ^ (fuel + 1) * (2 * delta)
            ≤ 2 ^ (fuel + 1) * roundToDouble (delta * 36) :=
          Nat.mul_le_mul_left _ (by omega)
        have hpow : 2 ^ (fuel + 1 + 1) * delta = 2 ^ (fuel + 1) * (2 * delta) := by ring
        omega
      · rfl

/-- The fuel `toString36` gives is enough: the digit loop returns. -/
theorem fractionLoop_isSome (n : Nat) (written : List Nat) :
    (fractionLoop 1075 n (initialDelta n) written).isSome = true := by
  have h1 : 1 ≤ initialDelta n := Nat.le_max_left _ _
  have aux : ∀ k d : Nat, 1 ≤ d → 2 ^ k ≤ 2 ^ (k + 1) * d := by
    intro k d hd
    calc 2 ^ k ≤ 2 ^ (k + 1) := Nat.pow_le_pow_right (by decide) (Nat.le_succ _)
      _ = 2 ^ (k + 1) * 1 := (Nat.mul_one _).symm
      _ ≤ 2 ^ (k + 1) * d := Nat.mul_le_mul_left _ hd
  exact fractionLoop_isSome_of_le 1074 n (initialDelta n) written (aux 1074 _ h1)

/-- Behind its first two characters the text of `toString36` holds digits
only. -/
theorem toString36_drop_two (x : RandomValue) :
    ∃ digits : List Nat, (toString36 x).drop 2 = digits.map base36Digit := by
  unfold toString36
  split
  · exact ⟨[], rfl⟩
  · split
    · rcases (fractionLoop 1075 x.units (initialDelta x.units) []).getD (false, [])
        with ⟨carried, written⟩
      by_cases hw : written.isEmpty = true
      · exact ⟨[], by simp [hw]⟩
      · exact ⟨written.reverse, by simp [hw]⟩
    · exact ⟨[], rfl⟩

/-- The engine's rounding of the last digit: for `0.8175769936333022` the text
is `0.tfkvee27`, eight digits, where the exact expansion goes on
`0.tfkvee26z...`; the identifier has eight characters behind `session_`. -/
theorem generateSessionId_rounded_last_digit :
    RandomValue.isDouble ⟨1841019721936815, 51⟩ ∧
    toString36 ⟨1841019721936815, 51⟩ = "0.tfkvee27".toList ∧
    generateSessionId ⟨1841019721936815, 51⟩ = "session_tfkvee27".toList := by
  decide!

/-- C7, as stated, fails: `Math.random()` can return one half, whose radix-36
text is `0.i`, and the identifier is then `session_i`, which does not match
`session_[0-9a-z]{9}`. -/
theorem generateSessionId_counterexample :
    RandomValue.isDouble ⟨1, 1⟩ ∧
    RandomValue.inRange ⟨1, 1⟩ ∧
    generateSessionId ⟨1, 1⟩ = "session_i".toList ∧
    matchesSessionPattern (generateSessionId ⟨1, 1⟩) = false := by
  decide!

/-- C7, amended: for every double `0 ≤ x < 1`, the radix conversion returns
and `generateSessionId` returns `session_` followed by the characters of the
text `x.toString(36)` from index 2 on, cut to nine: at most nine characters,
each of `[0-9a-z]`, namely the first nine digits the engine writes behind the
point, or all of them when it writes fewer (none for zero).  The identifier
matches `session_[0-9a-z]{9}` exactly when the text has at least nine digits
behind the point, that is, at least eleven characters. -/
theorem generateSessionId_shape (x : RandomValue) (_hd : x.isDouble) (_hx : x.inRange) :
    (fractionLoop 1075 x.units (initialDelta x.units) []).isSome = true ∧
    generateSessionId x = "session_".toList ++ ((toString36 x).drop 2).take 9 ∧
    (generateSessionId x).length ≤ 8 + 9 ∧
    (∀ c ∈ ((toString36 x).drop 2).take 9, isBase36Char c = true) ∧
    (matchesSessionPattern (generateSessionId x) = true ↔ 11 ≤ (toString36 x).length) := by
  have hall : ∀ c ∈ ((toString36 x).drop 2).take 9, isBase36Char c = true := by
    intro c hc
    obtain ⟨digits, hdigits⟩ := toString36_drop_two x
    rw [hdigits] at hc
    obtain ⟨k, -, rfl⟩ := List.mem_map.1 (List.mem_of_mem_take hc)
    exact base36Digit_isBase36Char k
  have hid : generateSessionId x
      = "session_".toList ++ ((toString36 x).drop 2).take 9 := rfl
  have hpre : ("session_".toList ++ ((toString36 x).drop 2).take 9).take 8
      = "session_".toList := by
    rw [List.take_append_of_le_length (by decide)]
    rfl
  have hsuf : ("session_".toList ++ ((toString36 x).drop 2).take 9).drop 8
      = ((toString36 x).drop 2).take 9 := by
    rw [List.drop_append_of_le_length (by decide)]
    rfl
  refine ⟨fractionLoop_isSome _ _, hid, ?_, hall, ?_⟩
  · rw [hid, List.length_append, List.length_take]
    have : "session_".toList.length = 8 := by decide
    omega
  · rw [hid]
    unfold matchesSessionPattern
    rw [hpre, hsuf, List.all_eq_true.2 hall, List.length_take, List.length_drop]
    simp only [beq_self_eq_true, Bool.true_and, Bool.and_true, beq_iff_eq]
    omega

theorem generateSessionId_shape_witness :
    RandomValue.isDouble ⟨3602879701896397, 55⟩ ∧
    RandomValue.inRange ⟨3602879701896397, 55⟩ ∧
    (fractionLoop 1075 (RandomValue.units ⟨3602879701896397, 55⟩)
      (initialDelta (RandomValue.units ⟨3602879701896397, 55⟩)) []).isSome = true ∧
    generateSessionId ⟨3602879701896397, 55⟩
      = "session_".toList ++ ((toString36 ⟨3602879701896397, 55⟩).drop 2).take 9 ∧
    (generateSessionId ⟨3602879701896397, 55⟩).length ≤ 8 + 9 ∧
    (∀ c ∈ ((toString36 ⟨3602879701896397, 55⟩).drop 2).take 9, isBase36Char c = true) ∧
    (matchesSessionPattern (generateSessionId ⟨3602879701896397, 55⟩) = true
      ↔ 11 ≤ (toString36 ⟨3602879701896397, 55⟩).length) :=
  ⟨by decide!, by decide!,
    generateSessionId_shape ⟨3602879701896397, 55⟩ (by decide!) (by decide!)⟩

/-! ## C8 -/

/-- C8, as stated, fails: on a page loaded over `https:` the socket is opened
on a `ws://` URL, not on the `wss://` one. -/
theorem connectWebSocket_scheme_counterexample :
    (NexusChatbotUI.constructor ⟨"https:".toList, "example.com".toList⟩ ⟨1, 18⟩ emptyPage).url
      = some "ws://example.com/ws/session_0006enrk9".toList ∧
    (NexusChatbotUI.constructor ⟨"https:".toList, "example.com".toList⟩ ⟨1, 18⟩ emptyPage).url
      ≠ some "wss://example.com/ws/session_0006enrk9".toList := by
  decide!

/-- C8, amended: for every page host and page scheme, the constructor keeps the
identifier `generateSessionId` returned and `connectWebSocket` opens the URL
`ws://<host>/ws/<sessionId>` with that identifier; the scheme is `ws` whatever
the scheme of the page. -/
theorem connectWebSocket_url (location : Location) (random : RandomValue) (page : Dom) :
    (NexusChatbotUI.constructor location random page).sessionId = generateSessionId random ∧
    (NexusChatbotUI.constructor location random page).url
      = some ("ws://".toList ++ location.host ++ "/ws/".toList ++ generateSessionId random) ∧
    (NexusChatbotUI.constructor location random page).ws.map (·.readyState)
      = some .CONNECTING :=
  ⟨rfl, rfl, rfl⟩

/-! ## C9 -/

/-- C9: when the text of an inbound frame is not JSON, so that `JSON.parse`
throws, `onmessage` ends in that `SyntaxError`, uncaught, and the state is the
state before the frame: transcript, details panel, graph viewer and metrics
display are unchanged. -/
theorem onmessage_malformed (env : Env) (ui : NexusChatbotUI) (data : JSString)
    (hbad : env.JSONparse data = none) :
    onmessage env ui data = ⟨ui, some .syntaxError⟩ := by
  simp only [onmessage, hbad]

theorem onmessage_malformed_witness :
    fixtureEnv.JSONparse "\x7b\"human_response\":".toList = none ∧
    onmessage fixtureEnv (fixtureClient .OPEN emptyPage) "\x7b\"human_response\":".toList
      = ⟨fixtureClient .OPEN emptyPage, some .syntaxError⟩ :=
  ⟨rfl, onmessage_malformed fixtureEnv (fixtureClient .OPEN emptyPage)
    "\x7b\"human_response\":".toList rfl⟩

/-! ## C10 -/

/-- C10, as stated, fails: on a closed socket `sendMessage` with the input
`hello` raises no error. -/
theorem sendMessage_closed_counterexample :
    (fixtureClient .CLOSED { emptyPage with messageInput := "hello".toList }).ws.map
      (·.readyState) = some .CLOSED ∧
    trim "hello".toList = "hello".toList ∧
    (sendMessage fixtureEnv
      (fixtureClient .CLOSED { emptyPage with messageInput := "hello".toList })).fault = none := by
  decide!

/-- C10, amended: when the trimmed input `t` is not empty and the socket is
not open, `sendMessage` transmits no frame, yet the `user` entry is appended
and the input control cleared all the same, so the state differs from the
state before the call; it ends in the `InvalidStateError` of `send` when the
socket is still connecting, and without any error when the socket is closing
or closed. -/
theorem sendMessage_not_open (env : Env) (ui : NexusChatbotUI) (ws : WebSocket)
    (hws : ui.ws = some ws) (hno : ws.readyState ≠ .OPEN)
    (ht : trim ui.document.messageInput ≠ []) :
    (sendMessage env ui).state.ws = some ws ∧
    (sendMessage env ui).state.document.chatHistory = ui.document.chatHistory ++
      [⟨"message user".toList, "user: ".toList ++ trim ui.document.messageInput⟩] ∧
    (sendMessage env ui).state.document.messageInput = [] ∧
    (sendMessage env ui).state.document.chatHistory ≠ ui.document.chatHistory ∧
    (sendMessage env ui).fault
      = (if ws.readyState = .CONNECTING then some .invalidStateError else none) := by
  have hne : ui.document.chatHistory ++
      [(⟨"message user".toList, "user: ".toList ++ trim ui.document.messageInput⟩ : MessageDiv)]
      ≠ ui.document.chatHistory := by
    intro h
    have := congrArg List.length h
    simp at this
  cases hrs : ws.readyState with
  | OPEN => exact absurd hrs hno
  | CONNECTING =>
    have : sendMessage env ui = ⟨{ ui with document := { ui.document with
        messageInput := []
        chatHistory := ui.document.chatHistory ++
          [⟨"message user".toList, "user: ".toList ++ trim ui.document.messageInput⟩]
        chatScrolledToEnd := true } }, some .invalidStateError⟩ := by
      simp [sendMessage, ht, addMessage, Outcome.andThen, hws, WebSocket.send, hrs, toStr]
    rw [this]
    exact ⟨hws, rfl, rfl, hne, rfl⟩
  | CLOSING =>
    have : sendMessage env ui = ⟨{ ui with
        ws := some ws
        document := { ui.document with
          messageInput := []
          chatHistory := ui.document.chatHistory ++
            [⟨"message user".toList, "user: ".toList ++ trim ui.document.messageInput⟩]
          chatScrolledToEnd := true } }, none⟩ := by
      simp [sendMessage, ht, addMessage, Outcome.andThen, hws, WebSocket.send, hrs, toStr]
    rw [this]
    exact ⟨rfl, rfl, rfl, hne, rfl⟩
  | CLOSED =>
    have : sendMessage env ui = ⟨{ ui with
        ws := some ws
        document := { ui.document with
          messageInput := []
          chatHistory := ui.document.chatHistory ++
            [⟨"message user".toList, "user: ".toList ++ trim ui.document.messageInput⟩]
          chatScrolledToEnd := true } }, none⟩ := by
      simp [sendMessage, ht, addMessage, Outcome.andThen, hws, WebSocket.send, hrs, toStr]
    rw [this]
    exact ⟨rfl, rfl, rfl, hne, rfl⟩

theorem sendMessage_not_open_witness :
    (sendMessage fixtureEnv
      (fixtureClient .CONNECTING { emptyPage with messageInput := "hello".toList })).state.ws
      = some { url := "ws://localhost/ws/session_0006enrk9".toList,
               readyState := .CONNECTING, sent := [] } ∧
    (sendMessage fixtureEnv
      (fixtureClient .CONNECTING
        { emptyPage with messageInput := "hello".toList })).state.document.chatHistory
      = [] ++ [⟨"message user".toList, "user: ".toList ++ trim "hello".toList⟩] ∧
    (sendMessage fixtureEnv
      (fixtureClient .CONNECTING
        { emptyPage with messageInput := "hello".toList })).state.document.messageInput = [] ∧
    (sendMessage fixtureEnv
      (fixtureClient .CONNECTING
        { emptyPage with messageInput := "hello".toList })).state.document.chatHistory ≠ [] ∧
    (sendMessage fixtureEnv
      (fixtureClient .CONNECTING
        { emptyPage with messageInput := "hello".toList })).fault
      = (if ReadyState.CONNECTING = .CONNECTING then some .invalidStateError else none) :=
  sendMessage_not_open fixtureEnv
    (fixtureClient .CONNECTING { emptyPage with messageInput := "hello".toList })
    { url := "ws://localhost/ws/session_0006enrk9".toList, readyState := .CONNECTING, sent := [] }
    rfl (by decide) (by decide)

end NexusChatbot
